import Mathlib

/-!
Verification of the field-extraction and record-reconciliation pipeline of the
`cars_scraper` repository, as a shallow embedding in Lean 4.

Modelling conventions, used uniformly below:
* Python strings are `List Char` (named `Str`); string truthiness is
  non-emptiness, `None` is `Option.none`.
* Python `float` values in this code base carry dollar amounts obtained from
  parsing integers; they are modelled as exact rationals (`Rat`).
* `datetime` values are abstracted as natural-number timestamps; ISO
  serialization is decimal rendering, which—as with
  `datetime.fromisoformat (datetime.isoformat t)`—parses back losslessly.
* Python `dict`s are association lists (`ainsert` mirrors key replacement,
  `alookup` mirrors lookup); `set`s of strings are `Finset Str`.
-/

set_option maxRecDepth 4000

/-- Python strings, modelled as lists of characters. -/
abbrev Str := List Char

/-- A Lean string literal viewed as a `Str`. -/
def str (s : String) : Str := s.data

/-- ASCII lower-casing of one character (Python `str.lower` on the ASCII texts
used throughout this code base). -/
def lowerChar (c : Char) : Char :=
  if 'A' ≤ c ∧ c ≤ 'Z' then Char.ofNat (c.toNat + 32) else c

/-- ASCII upper-casing of one character (Python `str.upper`). -/
def upperChar (c : Char) : Char :=
  if 'a' ≤ c ∧ c ≤ 'z' then Char.ofNat (c.toNat - 32) else c

/-- `s.lower()`. -/
def lowerStr (s : Str) : Str := s.map lowerChar

/-- `s.upper()`. -/
def upperStr (s : Str) : Str := s.map upperChar

/-- Characters stripped by Python `str.strip()` (ASCII whitespace). -/
def isSpaceChar (c : Char) : Bool :=
  c = ' ' || c = '\t' || c = '\n' || c = '\r' || c = Char.ofNat 11 || c = Char.ofNat 12

/-- `s.strip()`. -/
def stripStr (s : Str) : Str :=
  ((s.dropWhile isSpaceChar).reverse.dropWhile isSpaceChar).reverse

/-- `needle` is a prefix of `hay` (Python `str.startswith`). -/
def startsWith : Str → Str → Bool
  | [], _ => true
  | _ :: _, [] => false
  | a :: as, b :: bs => a = b && startsWith as bs

/-- `needle in hay` for Python strings: contiguous-substring containment. -/
def containsStr (needle : Str) : Str → Bool
  | [] => startsWith needle []
  | c :: t => startsWith needle (c :: t) || containsStr needle t

/-- Truthiness of an optional string (`None` and `""` are falsy). -/
def strTruthy : Option Str → Bool
  | none => false
  | some s => !s.isEmpty

/-- An ASCII apostrophe (kept out of string literals). -/
def apos : Char := Char.ofNat 39

/-- The record type of `models.CarListing` (src/cars_scraper/models.py).
Field names and order follow the dataclass. -/
structure CarListing where
  dealer_name : Str
  dealer_website : Str
  vehicle_url : Str
  year : Int
  make : Str
  model : Str
  trim : Option Str := none
  new_used : Str := str "new"
  fuel_type : Option Str := none
  drivetrain : Option Str := none
  transmission : Option Str := none
  body_style : Option Str := none
  msrp : Option Rat := none
  sale_price : Option Rat := none
  total_price : Option Rat := none
  currency : Str := str "USD"
  price_note : Option Str := none
  vin : Option Str := none
  stock_number : Option Str := none
  mileage : Option Int := none
  mileage_units : Str := str "mi"
  in_stock_status : Option Str := none
  exterior_color : Option Str := none
  interior_color : Option Str := none
  dealer_location_city : Option Str := none
  dealer_location_state : Option Str := none
  images : List Str := []
  description : Option Str := none
  features : List Str := []
  scraped_at : Option Nat := none
deriving DecidableEq, Repr

/-- Truthiness of an optional numeric field (`None` and `0.0` are falsy). -/
def ratTruthy : Option Rat → Bool
  | none => false
  | some v => v ≠ 0

/-- The derived `price` property of `CarListing` (models.py lines 73-82).
Note the Python code tests truthiness (`if self.sale_price:`), not
non-`None`-ness. -/
def CarListing.price (c : CarListing) : Rat :=
  if ratTruthy c.sale_price then c.sale_price.getD 0
  else if ratTruthy c.total_price then c.total_price.getD 0
  else if ratTruthy c.msrp then c.msrp.getD 0
  else 0

/-- The `is_electric` derived property of `CarListing` (models.py 84-90). -/
def CarListing.is_electric (c : CarListing) : Bool :=
  match c.fuel_type with
  | none => false
  | some f => lowerStr f ∈ [str "electric", str "ev", str "bev", str "phev",
      str "plug-in", str "plugin"]

/-- `CarListing.__post_init__` validation (models.py 92-115): `true` iff
construction succeeds given the ambient `currentYear`
(`datetime.now().year`). -/
def postInitOk (c : CarListing) (currentYear : Int) : Bool :=
  c.dealer_name ≠ [] && c.dealer_website ≠ [] && c.vehicle_url ≠ [] &&
  c.make ≠ [] && c.model ≠ [] &&
  (1900 ≤ c.year && c.year ≤ currentYear + 1) &&
  (c.new_used ∈ [str "new", str "used", str "cpo"]) &&
  (match c.mileage with | none => true | some m => 0 ≤ m) &&
  (match c.msrp with | none => true | some v => 0 ≤ v) &&
  (match c.sale_price with | none => true | some v => 0 ≤ v) &&
  (match c.total_price with | none => true | some v => 0 ≤ v)

/-- The spec's description of the derived price ("first non-null of
(salePrice, totalPrice, msrp) else 0"), stated verbatim for comparison with
the code's `CarListing.price`. -/
def priceSpecFirstNonNull (c : CarListing) : Rat :=
  match c.sale_price with
  | some v => v
  | none =>
    match c.total_price with
    | some v => v
    | none =>
      match c.msrp with
      | some v => v
      | none => 0

/-- The amended description of the derived price: first non-null *and
non-zero* value among (sale_price, total_price, msrp), else 0. -/
def priceFirstTruthy (c : CarListing) : Rat :=
  match c.sale_price with
  | some v =>
    if v ≠ 0 then v else
      match c.total_price with
      | some w => if w ≠ 0 then w else (match c.msrp with
          | some u => if u ≠ 0 then u else 0
          | none => 0)
      | none => (match c.msrp with
          | some u => if u ≠ 0 then u else 0
          | none => 0)
  | none =>
    match c.total_price with
    | some w => if w ≠ 0 then w else (match c.msrp with
        | some u => if u ≠ 0 then u else 0
        | none => 0)
    | none => (match c.msrp with
        | some u => if u ≠ 0 then u else 0
        | none => 0)

/- ===================== Deduplicator (deduplicate.py) ===================== -/

/-- `dict` lookup over an association list. -/
def alookup (k : Str) : List (Str × CarListing) → Option CarListing
  | [] => none
  | (k2, v) :: rest => if k2 = k then some v else alookup k rest

/-- `dict[k] = v`: replace the binding if the key is present, else add it. -/
def ainsert (k : Str) (v : CarListing) : List (Str × CarListing) → List (Str × CarListing)
  | [] => [(k, v)]
  | (k2, v2) :: rest => if k2 = k then (k, v) :: rest else (k2, v2) :: ainsert k v rest

/-- `list.remove(x)` guarded by `x in list`: drop the first occurrence of `x`
(dataclass equality is structural), or leave the list unchanged if absent. -/
def eraseFirst (l : List CarListing) (x : CarListing) : List CarListing :=
  match l with
  | [] => []
  | y :: ys => if y = x then ys else y :: eraseFirst ys x

/-- VIN normalization used by the deduplicator: `vin.strip().upper()`. -/
def normVin (s : Str) : Str := upperStr (stripStr s)

/-- URL normalization used by the deduplicator: `url.strip().lower()`. -/
def normUrl (s : Str) : Str := lowerStr (stripStr s)

/-- State threaded through the `deduplicate_listings` loop. -/
structure DedupState where
  seen_by_vin : List (Str × CarListing)
  seen_by_url : List (Str × CarListing)
  dedup : List CarListing
  dup_vin : Nat
  dup_url : Nat
deriving DecidableEq, Repr

def initDedupState : DedupState :=
  { seen_by_vin := [], seen_by_url := [], dedup := [], dup_vin := 0, dup_url := 0 }

/-- The VIN branch of the loop body of `deduplicate_listings`
(deduplicate.py 50-72).  Returns `(is_duplicate, new_state)`. -/
def vinCheck (pl : Bool) (st : DedupState) (car : CarListing) : Bool × DedupState :=
  if strTruthy car.vin then
    let key := normVin (car.vin.getD [])
    match alookup key st.seen_by_vin with
    | some existing =>
      let st1 :=
        if pl && car.scraped_at.isSome && existing.scraped_at.isSome then
          if car.scraped_at.getD 0 > existing.scraped_at.getD 0 then
            { st with seen_by_vin := ainsert key car st.seen_by_vin
                      dedup := eraseFirst st.dedup existing ++ [car] }
          else st
        else st
      (true, { st1 with dup_vin := st1.dup_vin + 1 })
    | none => (false, { st with seen_by_vin := ainsert key car st.seen_by_vin })
  else (false, st)

/-- The URL branch of the loop body of `deduplicate_listings`
(deduplicate.py 74-96), reached only when the record was not a VIN duplicate. -/
def urlCheck (pl : Bool) (st : DedupState) (car : CarListing) : Bool × DedupState :=
  if strTruthy (some car.vehicle_url) then
    let key := normUrl car.vehicle_url
    match alookup key st.seen_by_url with
    | some existing =>
      let st1 :=
        if pl && car.scraped_at.isSome && existing.scraped_at.isSome then
          if car.scraped_at.getD 0 > existing.scraped_at.getD 0 then
            { st with seen_by_url := ainsert key car st.seen_by_url
                      dedup := eraseFirst st.dedup existing ++ [car] }
          else st
        else st
      (true, { st1 with dup_url := st1.dup_url + 1 })
    | none => (false, { st with seen_by_url := ainsert key car st.seen_by_url })
  else (false, st)

/-- One iteration of the `for car in cars` loop of `deduplicate_listings`. -/
def dedupStep (pl : Bool) (st : DedupState) (car : CarListing) : DedupState :=
  let r1 := vinCheck pl st car
  let r2 := if r1.1 then r1 else urlCheck pl r1.2 car
  if r2.1 then r2.2 else { r2.2 with dedup := r2.2.dedup ++ [car] }

/-- The statistics dictionary returned by `deduplicate_listings`. -/
structure DedupStats where
  total : Nat
  duplicates_by_vin : Nat
  duplicates_by_url : Nat
  final : Nat
deriving DecidableEq, Repr

/-- `deduplicate_listings(cars, prefer_latest)` (deduplicate.py 12-104). -/
def deduplicate_listings (cars : List CarListing) (prefer_latest : Bool) :
    List CarListing × DedupStats :=
  let st := cars.foldl (dedupStep prefer_latest) initDedupState
  (st.dedup,
   { total := cars.length
     duplicates_by_vin := st.dup_vin
     duplicates_by_url := st.dup_url
     final := st.dedup.length })

/- ============ Drivetrain normalization (car_regexes.py 215-249) ============ -/

/-- The `DRIVETRAIN_NORMALIZE` table, in Python insertion order (dict
iteration order is insertion order, which the substring scan relies on). -/
def DRIVETRAIN_NORMALIZE : List (Str × Str) :=
  [ (str "awd", str "AWD"), (str "all wheel drive", str "AWD"),
    (str "all-wheel drive", str "AWD"), (str "xdrive", str "AWD"),
    (str "4matic", str "AWD"), (str "4motion", str "AWD"),
    (str "quattro", str "AWD"),
    (str "fwd", str "FWD"), (str "front wheel drive", str "FWD"),
    (str "front-wheel drive", str "FWD"),
    (str "rwd", str "RWD"), (str "rear wheel drive", str "RWD"),
    (str "rear-wheel drive", str "RWD"),
    (str "4wd", str "4WD"), (str "4x4", str "4WD"),
    (str "four wheel drive", str "4WD"), (str "four-wheel drive", str "4WD") ]

/-- Exact dict lookup on the normalization table. -/
def dtLookup (t : Str) : List (Str × Str) → Option Str
  | [] => none
  | (k, v) :: rest => if k = t then some v else dtLookup t rest

/-- The key normalization of `normalize_drivetrain`:
`raw.lower().strip().replace("-", " ")`. -/
def dtNormalizeKey (r : Str) : Str :=
  (stripStr (lowerStr r)).map (fun c => if c = '-' then ' ' else c)

/-- The table consultation of `normalize_drivetrain`: exact dict hit first,
then the first table key occurring as a substring (dict iteration order). -/
def dtResolve (t : Str) : Option Str :=
  match dtLookup t DRIVETRAIN_NORMALIZE with
  | some v => some v
  | none =>
    match DRIVETRAIN_NORMALIZE.find? (fun kv => containsStr kv.1 t) with
    | some kv => some kv.2
    | none => none

/-- `normalize_drivetrain(raw)` (car_regexes.py 239-249). -/
def normalize_drivetrain (raw : Option Str) : Option Str :=
  match raw with
  | none => none
  | some r =>
    if r = [] then none
    else dtResolve (dtNormalizeKey r)

/- ================= VIN regex (car_regexes.py 12-31) ================= -/

/-- Python `\w` on the ASCII texts in play: letters, digits, underscore. -/
def isWordChar (c : Char) : Bool := c.isAlphanum || c = '_'

/-- The character class `[A-HJ-NPR-Z0-9]` of `VIN_REGEX`. -/
def isVinChar (c : Char) : Bool :=
  ('A' ≤ c && c ≤ 'H') || ('J' ≤ c && c ≤ 'N') || c = 'P' ||
  ('R' ≤ c && c ≤ 'Z') || c.isDigit

/-- A match of `\b([A-HJ-NPR-Z0-9]{17})\b` anchored at the current position:
`prev` is the character before the position (`none` at the string start).
The leading `\b` holds iff `prev` is not a word character (the first matched
character is always a word character); the trailing `\b` holds iff the
character after the 17 matched ones is absent or not a word character. -/
def vinMatchHere (prev : Option Char) (s : Str) : Option Str :=
  let tok := s.take 17
  let boundaryBefore := match prev with
    | none => true
    | some p => !isWordChar p
  let boundaryAfter := match s.drop 17 with
    | [] => true
    | c :: _ => !isWordChar c
  if tok.length = 17 && tok.all isVinChar && boundaryBefore && boundaryAfter then
    some tok
  else none

/-- `regex.search`: try every position left to right, return the leftmost
match of `VIN_REGEX`. -/
def vinSearchAux (prev : Option Char) : Str → Option Str
  | [] => none
  | c :: rest =>
    match vinMatchHere prev (c :: rest) with
    | some t => some t
    | none => vinSearchAux (some c) rest

/-- `first_group(VIN_REGEX, text)` (car_regexes.py 12-22): the leftmost
matched group, stripped. -/
def vin_first_group (text : Str) : Option Str :=
  (vinSearchAux none text).map stripStr

/- ============== Decimal rendering and parsing (for numbers) ============== -/

/-- Render a natural number in decimal; the first argument is fuel. -/
def natToStrAux : Nat → Nat → Str
  | 0, _ => []
  | fuel + 1, n =>
    if n < 10 then [Nat.digitChar n]
    else natToStrAux fuel (n / 10) ++ [Nat.digitChar (n % 10)]

/-- Decimal rendering of a natural number (Python `str(n)` for `n ≥ 0`). -/
def natToStr (n : Nat) : Str := natToStrAux (n + 1) n

/-- Decimal rendering of an integer (Python `str(i)` / f-string `{i}`). -/
def intToStr (i : Int) : Str :=
  if i < 0 then '-' :: natToStr (-i).toNat else natToStr i.toNat

def isDigitChar (c : Char) : Bool := '0' ≤ c && c ≤ '9'

def digitVal (c : Char) : Option Nat :=
  if isDigitChar c then some (c.toNat - 48) else none

def parseNatAux : Str → Nat → Option Nat
  | [], acc => some acc
  | c :: r, acc =>
    match digitVal c with
    | some d => parseNatAux r (acc * 10 + d)
    | none => none

/-- Parse a non-empty all-digit string as a natural number. -/
def parseNat : Str → Option Nat
  | [] => none
  | c :: r => parseNatAux (c :: r) 0

/- ================= Checkpoint manager (checkpoint.py) ================= -/

/-- JSON values as written by `json.dump` / read by `json.load`.  Python
floats are exact rationals here (`json` round-trips floats via `repr`); a
JSON object is an association list of fields. -/
inductive Json where
  | null
  | jstr (s : Str)
  | jint (n : Int)
  | jnum (q : Rat)
  | jarr (xs : List Json)
  | jobj (fields : List (Str × Json))

/-- Lookup of a key in a JSON object field list. -/
def jlookup (k : Str) : List (Str × Json) → Option Json
  | [] => none
  | (k2, v) :: rest => if k2 = k then some v else jlookup k rest

def jOfOptStr : Option Str → Json
  | none => Json.null
  | some s => Json.jstr s

def jOfOptNum : Option Rat → Json
  | none => Json.null
  | some q => Json.jnum q

def jOfOptInt : Option Int → Json
  | none => Json.null
  | some n => Json.jint n

def jToStr : Option Json → Option Str
  | some (Json.jstr s) => some s
  | _ => none

def jToInt : Option Json → Option Int
  | some (Json.jint n) => some n
  | _ => none

def jToOptStr : Option Json → Option (Option Str)
  | some Json.null => some none
  | some (Json.jstr s) => some (some s)
  | _ => none

def jToOptNum : Option Json → Option (Option Rat)
  | some Json.null => some none
  | some (Json.jnum q) => some (some q)
  | _ => none

def jToOptInt : Option Json → Option (Option Int)
  | some Json.null => some none
  | some (Json.jint n) => some (some n)
  | _ => none

def decStrJson : Json → Option Str
  | Json.jstr s => some s
  | _ => none

def jToStrList : Option Json → Option (List Str)
  | some (Json.jarr xs) => xs.mapM decStrJson
  | _ => none

/-- `datetime.isoformat`, on timestamps abstracted as naturals. -/
def isoformat (t : Nat) : Str := natToStr t

/-- `datetime.fromisoformat`; a `ValueError` is `none`.  Inverse of
`isoformat`, mirroring the Python pair on real datetimes. -/
def fromisoformat (s : Str) : Option Nat := parseNat s

/-- The per-listing dictionary written by `CheckpointManager.save`
(checkpoint.py 96-129): every dataclass field, with `scraped_at` rendered by
`isoformat` when present and `null` otherwise. -/
def encFields (c : CarListing) : List (Str × Json) :=
    [ (str "dealer_name", Json.jstr c.dealer_name),
      (str "dealer_website", Json.jstr c.dealer_website),
      (str "vehicle_url", Json.jstr c.vehicle_url),
      (str "year", Json.jint c.year),
      (str "make", Json.jstr c.make),
      (str "model", Json.jstr c.model),
      (str "trim", jOfOptStr c.trim),
      (str "new_used", Json.jstr c.new_used),
      (str "fuel_type", jOfOptStr c.fuel_type),
      (str "drivetrain", jOfOptStr c.drivetrain),
      (str "transmission", jOfOptStr c.transmission),
      (str "body_style", jOfOptStr c.body_style),
      (str "msrp", jOfOptNum c.msrp),
      (str "sale_price", jOfOptNum c.sale_price),
      (str "total_price", jOfOptNum c.total_price),
      (str "currency", Json.jstr c.currency),
      (str "price_note", jOfOptStr c.price_note),
      (str "vin", jOfOptStr c.vin),
      (str "stock_number", jOfOptStr c.stock_number),
      (str "mileage", jOfOptInt c.mileage),
      (str "mileage_units", Json.jstr c.mileage_units),
      (str "in_stock_status", jOfOptStr c.in_stock_status),
      (str "exterior_color", jOfOptStr c.exterior_color),
      (str "interior_color", jOfOptStr c.interior_color),
      (str "dealer_location_city", jOfOptStr c.dealer_location_city),
      (str "dealer_location_state", jOfOptStr c.dealer_location_state),
      (str "images", Json.jarr (c.images.map Json.jstr)),
      (str "description", jOfOptStr c.description),
      (str "features", Json.jarr (c.features.map Json.jstr)),
      (str "scraped_at", match c.scraped_at with
        | some t => Json.jstr (isoformat t)
        | none => Json.null) ]

def encodeListing (c : CarListing) : Json := Json.jobj (encFields c)

/-- Rebuilding one listing in `CheckpointManager.load` (checkpoint.py 55-59):
`scraped_at` strings go through `fromisoformat`, then `CarListing(**dict)`
re-runs `__post_init__` under the ambient `currentYear`.  Any shape mismatch,
parse failure or failed validation raises in Python and is `none` here.
(`save` always writes every key, so all keys are required.) -/
structure DecA where
  dealer_name : Str
  dealer_website : Str
  vehicle_url : Str
  year : Int
  make : Str
  model : Str
  trim : Option Str
  new_used : Str
  fuel_type : Option Str
  drivetrain : Option Str

structure DecB where
  transmission : Option Str
  body_style : Option Str
  msrp : Option Rat
  sale_price : Option Rat
  total_price : Option Rat
  currency : Str
  price_note : Option Str
  vin : Option Str
  stock_number : Option Str
  mileage : Option Int

structure DecC where
  mileage_units : Str
  in_stock_status : Option Str
  exterior_color : Option Str
  interior_color : Option Str
  dealer_location_city : Option Str
  dealer_location_state : Option Str
  images : List Str
  description : Option Str
  features : List Str
  scraped_at : Option Nat

def decodeA (f : List (Str × Json)) : Option DecA := do
  let dealer_name ← jToStr (jlookup (str "dealer_name") f)
  let dealer_website ← jToStr (jlookup (str "dealer_website") f)
  let vehicle_url ← jToStr (jlookup (str "vehicle_url") f)
  let year ← jToInt (jlookup (str "year") f)
  let make ← jToStr (jlookup (str "make") f)
  let model ← jToStr (jlookup (str "model") f)
  let trim ← jToOptStr (jlookup (str "trim") f)
  let new_used ← jToStr (jlookup (str "new_used") f)
  let fuel_type ← jToOptStr (jlookup (str "fuel_type") f)
  let drivetrain ← jToOptStr (jlookup (str "drivetrain") f)
  some { dealer_name, dealer_website, vehicle_url, year, make, model, trim, new_used, fuel_type, drivetrain }

def decodeB (f : List (Str × Json)) : Option DecB := do
  let transmission ← jToOptStr (jlookup (str "transmission") f)
  let body_style ← jToOptStr (jlookup (str "body_style") f)
  let msrp ← jToOptNum (jlookup (str "msrp") f)
  let sale_price ← jToOptNum (jlookup (str "sale_price") f)
  let total_price ← jToOptNum (jlookup (str "total_price") f)
  let currency ← jToStr (jlookup (str "currency") f)
  let price_note ← jToOptStr (jlookup (str "price_note") f)
  let vin ← jToOptStr (jlookup (str "vin") f)
  let stock_number ← jToOptStr (jlookup (str "stock_number") f)
  let mileage ← jToOptInt (jlookup (str "mileage") f)
  some { transmission, body_style, msrp, sale_price, total_price, currency, price_note, vin, stock_number, mileage }

def decodeC (f : List (Str × Json)) : Option DecC := do
  let mileage_units ← jToStr (jlookup (str "mileage_units") f)
  let in_stock_status ← jToOptStr (jlookup (str "in_stock_status") f)
  let exterior_color ← jToOptStr (jlookup (str "exterior_color") f)
  let interior_color ← jToOptStr (jlookup (str "interior_color") f)
  let dealer_location_city ← jToOptStr (jlookup (str "dealer_location_city") f)
  let dealer_location_state ← jToOptStr (jlookup (str "dealer_location_state") f)
  let images ← jToStrList (jlookup (str "images") f)
  let description ← jToOptStr (jlookup (str "description") f)
  let features ← jToStrList (jlookup (str "features") f)
  let scraped_at ← match jlookup (str "scraped_at") f with
    | some (Json.jstr s) => (fromisoformat s).map some
    | some Json.null => some none
    | _ => none
  some { mileage_units, in_stock_status, exterior_color, interior_color, dealer_location_city, dealer_location_state, images, description, features, scraped_at }

def assembleListing (a : DecA) (b : DecB) (c : DecC) : CarListing :=
  { dealer_name := a.dealer_name, dealer_website := a.dealer_website,
    vehicle_url := a.vehicle_url, year := a.year, make := a.make,
    model := a.model, trim := a.trim, new_used := a.new_used,
    fuel_type := a.fuel_type, drivetrain := a.drivetrain,
    transmission := b.transmission, body_style := b.body_style,
    msrp := b.msrp, sale_price := b.sale_price, total_price := b.total_price,
    currency := b.currency, price_note := b.price_note, vin := b.vin,
    stock_number := b.stock_number, mileage := b.mileage,
    mileage_units := c.mileage_units, in_stock_status := c.in_stock_status,
    exterior_color := c.exterior_color, interior_color := c.interior_color,
    dealer_location_city := c.dealer_location_city,
    dealer_location_state := c.dealer_location_state, images := c.images,
    description := c.description, features := c.features,
    scraped_at := c.scraped_at }

def decodeListing (j : Json) (currentYear : Int) : Option CarListing :=
  match j with
  | Json.jobj f => do
    let a ← decodeA f
    let b ← decodeB f
    let c ← decodeC f
    let r := assembleListing a b c
    if postInitOk r currentYear then some r else none
  | _ => none

/-- The in-memory state of a `CheckpointManager`. -/
structure ManagerState where
  completed_dealerships : Finset Str
  scraped_listings : List CarListing
  start_time : Option Nat
  last_update : Option Nat

/-- A freshly constructed manager (checkpoint.py 21-32). -/
def freshManager : ManagerState :=
  { completed_dealerships := ∅, scraped_listings := [], start_time := none,
    last_update := none }

/-- The checkpoint JSON written by `CheckpointManager.save`
(checkpoint.py 78-144): `completed_dealerships` as a list (the Python
argument is a set; `completed` is its iteration order, so set equality below
is stated through `List.toFinset`), the listing dicts, and ISO timestamps
(`start_time` defaults to the current save time on the first save, `now`). -/
def saveFields (completed : List Str) (records : List CarListing)
    (start_time : Option Nat) (now : Nat) : List (Str × Json) :=
    [ (str "completed_dealerships", Json.jarr (completed.map Json.jstr)),
      (str "scraped_listings", Json.jarr (records.map encodeListing)),
      (str "start_time", Json.jstr (isoformat (start_time.getD now))),
      (str "last_update", Json.jstr (isoformat now)),
      (str "version", Json.jstr (str "1.0")) ]

def saveCheckpoint (completed : List Str) (records : List CarListing)
    (start_time : Option Nat) (now : Nat) : Json :=
  Json.jobj (saveFields completed records start_time now)

/-- What the checkpoint file holds when `load` runs: no file, a file whose
text `json.load` rejects, or a parsed JSON value. -/
inductive FileContent where
  | missing
  | malformed
  | parsed (j : Json)

/-- The listing-rebuild loop of `load` (checkpoint.py 54-59): records decoded
so far, and whether the whole loop succeeded.  On the first bad entry the
exception propagates, leaving the already-appended records in place. -/
def decodeListings (js : List Json) (currentYear : Int) (acc : List CarListing) :
    List CarListing × Bool :=
  match js with
  | [] => (acc, true)
  | j :: rest =>
    match decodeListing j currentYear with
    | some c => decodeListings rest currentYear (acc ++ [c])
    | none => (acc, false)

/-- `set(data.get('completed_dealerships', []))`: absent key defaults to the
empty list; a non-list value or non-string entry raises (modelled `none`). -/
def getCompleted (fields : List (Str × Json)) : Option (List Str) :=
  match jlookup (str "completed_dealerships") fields with
  | none => some []
  | some (Json.jarr xs) => xs.mapM decStrJson
  | some _ => none

/-- `data.get('scraped_listings', [])` followed by iterating: absent key
defaults to the empty list; a non-list value raises at the loop head. -/
def getListingsRaw (fields : List (Str × Json)) : Option (List Json) :=
  match jlookup (str "scraped_listings") fields with
  | none => some []
  | some (Json.jarr xs) => some xs
  | some _ => none

/-- `if key in data: fromisoformat(data[key])`: `some none` when the key is
absent (no assignment), `some (some t)` on a parse success, `none` when
`fromisoformat` raises. -/
def getTimeField (key : Str) (fields : List (Str × Json)) : Option (Option Nat) :=
  match jlookup key fields with
  | none => some none
  | some (Json.jstr s) => (fromisoformat s).map some
  | some _ => none

/-- `CheckpointManager.load` (checkpoint.py 34-76) as a state transformer:
returns the boolean result and the manager state after the call.  Mutations
happen in program order inside the `try`, so a failure part-way leaves the
mutations already made (this is what the code does; the claim under test says
otherwise).  A top-level value that is not an object fails at `data.get`
before any mutation. -/
def loadCheckpoint (content : FileContent) (currentYear : Int)
    (st : ManagerState) : Bool × ManagerState :=
  match content with
  | FileContent.missing => (false, st)
  | FileContent.malformed => (false, st)
  | FileContent.parsed j =>
    match j with
    | Json.jobj fields =>
      match getCompleted fields with
      | none => (false, st)
      | some comp =>
        let st1 := { st with completed_dealerships := comp.toFinset }
        match getListingsRaw fields with
        | none => (false, { st1 with scraped_listings := [] })
        | some js =>
          match decodeListings js currentYear [] with
          | (recs, false) => (false, { st1 with scraped_listings := recs })
          | (recs, true) =>
            let st2 := { st1 with scraped_listings := recs }
            match getTimeField (str "start_time") fields with
            | none => (false, st2)
            | some startT =>
              let st3 := { st2 with start_time :=
                match startT with | none => st2.start_time | some t => some t }
              match getTimeField (str "last_update") fields with
              | none => (false, st3)
              | some lastT =>
                (true, { st3 with last_update :=
                  match lastT with | none => st3.last_update | some t => some t })
    | _ => (false, st)

/- ================= Validator (validator.py) ================= -/

/-- `DataValidator.ELECTRIC_MAKES`. -/
def ELECTRIC_MAKES : List Str :=
  [str "Tesla", str "Rivian", str "Lucid", str "Polestar", str "BYD",
   str "Nio", str "Xpeng", str "Fisker", str "Lordstown", str "Canoo",
   str "Faraday Future"]

/-- `DataValidator.ELECTRIC_MODELS`. -/
def ELECTRIC_MODELS : List Str :=
  [str "Model S", str "Model 3", str "Model X", str "Model Y",
   str "R1T", str "R1S", str "Air",
   str "Polestar 2", str "Polestar 3", str "Polestar 4",
   str "Mustang Mach-E", str "F-150 Lightning",
   str "Bolt", str "Bolt EUV", str "Blazer EV", str "Equinox EV",
   str "Silverado EV",
   str "IONIQ 5", str "IONIQ 6", str "Kona Electric",
   str "EV6", str "EV9", str "Niro EV", str "Ariya",
   str "ID.4", str "ID.Buzz",
   str "e-tron", str "Q4 e-tron", str "e-tron GT",
   str "EQE", str "EQS", str "EQB", str "EQC",
   str "iX", str "i4", str "iX1", str "i5", str "i7",
   str "Lyriq", str "bZ4X", str "Solterra", str "Prologue",
   str "ZDX", str "RZ"]

/-- `DataValidator._is_likely_electric` (validator.py 151-178): the
early-return chain becomes a short-circuiting disjunction. -/
def likelyElectric (c : CarListing) : Bool :=
  (c.make ∈ ELECTRIC_MAKES) ||
  (c.model ∈ ELECTRIC_MODELS) ||
  ([str "electric", str "ev", str "e-tron", str "eq", str "id.", str "i4",
    str "ix", str "ioniq", str "mach-e", str "lightning", str "bolt",
    str "leaf"].any (fun kw => containsStr kw (lowerStr c.model))) ||
  (match c.fuel_type with
   | none => false
   | some f => [str "electric", str "ev", str "bev", str "phev",
       str "plug"].any (fun kw => containsStr kw (lowerStr f))) ||
  c.is_electric

/-- `DataValidator._is_valid_vin` (validator.py 180-194). -/
def isValidVin (v : Str) : Bool :=
  v.length = 17 && v.all isVinChar

/-- `DataValidator._looks_like_test_data` (validator.py 245-265). -/
def looksLikeTestData (c : CarListing) : Bool :=
  let indicators := [str "test", str "example", str "sample",
    str "placeholder", str "demo", str "xxx", str "zzz", str "abc123",
    str "000000", str "999999"]
  let fields : List (Option Str) :=
    [some c.make, some c.model, c.trim, some c.dealer_name, c.vin,
     c.stock_number, c.exterior_color]
  fields.any (fun f => match f with
    | none => false
    | some s => s ≠ [] && indicators.any (fun ind => containsStr ind (lowerStr s)))

/-- The per-make/model MSRP band table of
`DataValidator._validate_price_for_model` (validator.py 196-243). -/
def price_ranges : List (Str × List (Str × (Rat × Rat))) :=
  [ (str "Tesla",
      [ (str "Model 3", (35000, 55000)), (str "Model Y", (40000, 65000)),
        (str "Model S", (75000, 120000)), (str "Model X", (80000, 120000)) ]),
    (str "Hyundai",
      [ (str "IONIQ 5", (40000, 60000)), (str "IONIQ 6", (42000, 62000)),
        (str "Kona Electric", (33000, 45000)) ]),
    (str "Kia",
      [ (str "EV6", (42000, 65000)), (str "EV9", (55000, 75000)),
        (str "Niro EV", (39000, 50000)) ]),
    (str "Ford",
      [ (str "Mustang Mach-E", (40000, 65000)),
        (str "F-150 Lightning", (50000, 95000)) ]),
    (str "Chevrolet",
      [ (str "Bolt", (25000, 35000)), (str "Bolt EUV", (28000, 38000)),
        (str "Blazer EV", (45000, 65000)), (str "Equinox EV", (30000, 50000)) ]) ]

def bandLookup (k : Str) : List (Str × α) → Option α
  | [] => none
  | (k2, v) :: rest => if k2 = k then some v else bandLookup k rest

/-- Dollar rendering used inside validator messages.  Python formats with
`{:,.0f}` (rounded, comma-grouped); the rendering detail is irrelevant to
every property below, so amounts are rendered as plain decimal integers. -/
def ratToStr (q : Rat) : Str := intToStr q.floor

/-- `DataValidator._validate_price_for_model` (validator.py 196-243). -/
def priceBandWarnings (c : CarListing) : List Str :=
  match bandLookup c.make price_ranges with
  | none => []
  | some models =>
    match bandLookup c.model models with
    | none => []
    | some (lo, hi) =>
      let lo2 := lo * (6 / 10 : Rat)
      let hi2 := hi * (13 / 10 : Rat)
      if c.price < lo2 then
        [str "Price $" ++ ratToStr c.price ++ str " seems low for " ++
         c.make ++ str " " ++ c.model]
      else if c.price > hi2 then
        [str "Price $" ++ ratToStr c.price ++ str " seems high for " ++
         c.make ++ str " " ++ c.model]
      else []

/-- "Missing or unknown make" check. -/
def makeErr (c : CarListing) : List Str :=
  if c.make = [] || c.make = str "Unknown" then [str "Missing or unknown make"]
  else []

/-- "Missing or unknown model" check. -/
def modelErr (c : CarListing) : List Str :=
  if c.model = [] || c.model = str "Unknown" then
    [str "Missing or unknown model"]
  else []

/-- The year checks (validator.py 68-73), `currentYear` being
`datetime.now().year` at validation time. -/
def yearErr (c : CarListing) (currentYear : Int) : List Str :=
  if c.year < 2015 then
    [str "Year too old for electric vehicle: " ++ intToStr c.year]
  else if c.year > currentYear + 2 then
    [str "Year too far in future: " ++ intToStr c.year]
  else []

/-- The error half of the price chain (validator.py 76-84). -/
def priceErr (c : CarListing) (strict : Bool) : List Str :=
  if c.price = 0 || c.price ≤ 0 then
    (if strict then [str "Missing or zero price"] else [])
  else if c.price < 5000 then
    [str "Suspiciously low price: $" ++ ratToStr c.price]
  else if c.price > 250000 then
    [str "Price exceeds maximum for target vehicles: $" ++ ratToStr c.price]
  else []

/-- The warning half of the price chain (validator.py 76-84). -/
def priceMissingWarn (c : CarListing) (strict : Bool) : List Str :=
  if c.price = 0 || c.price ≤ 0 then
    (if strict then []
     else [str "Missing price - may be " ++ (apos :: str "call for price") ++
       (apos :: str " listing")])
  else []

def urlErr (c : CarListing) : List Str :=
  if c.vehicle_url = [] || !startsWith (str "http") c.vehicle_url then
    [str "Invalid or missing vehicle URL"]
  else []

def dealerNameErr (c : CarListing) : List Str :=
  if c.dealer_name = [] then [str "Missing dealer name"] else []

def dealerSiteErr (c : CarListing) : List Str :=
  if c.dealer_website = [] || !startsWith (str "http") c.dealer_website then
    [str "Invalid dealer website"]
  else []

def electricErr (c : CarListing) : List Str :=
  if !likelyElectric c then
    [str "Vehicle does not appear to be electric: " ++ intToStr c.year ++
     str " " ++ c.make ++ str " " ++ c.model]
  else []

/-- Fuel-type check (validator.py 104-110). -/
def fuelErr (c : CarListing) : List Str :=
  match c.fuel_type with
  | none => []
  | some f =>
    if f = [] then []
    else if [str "gasoline", str "gas", str "diesel", str "flex",
        str "e85"].any (fun kw => containsStr kw (lowerStr f)) then
      (if !containsStr (str "hybrid") (lowerStr f) &&
          !containsStr (str "phev") (lowerStr f) then
        [str "Non-electric fuel type: " ++ f]
      else [])
    else []

/-- VIN warnings (validator.py 114-120). -/
def vinWarn (c : CarListing) (strict : Bool) : List Str :=
  if strTruthy c.vin then
    (if !isValidVin (c.vin.getD []) then
      [str "Invalid VIN format: " ++ c.vin.getD []]
     else [])
  else if strict then [str "Missing VIN (harder to verify uniqueness)"]
  else []

/-- Mileage warning (validator.py 123-125). -/
def newMileageWarn (c : CarListing) : List Str :=
  match c.mileage with
  | none => []
  | some m =>
    if c.new_used = str "new" && m > 500 then
      [str "High mileage for new car: " ++ intToStr m]
    else []

/-- Mileage errors (validator.py 126-129), in append order. -/
def mileageErr (c : CarListing) : List Str :=
  match c.mileage with
  | none => []
  | some m =>
    (if m > 300000 then [str "Extremely high mileage: " ++ intToStr m] else []) ++
    (if m < 0 then [str "Negative mileage: " ++ intToStr m] else [])

def condWarn (c : CarListing) : List Str :=
  if c.new_used ∉ [str "new", str "used", str "cpo"] then
    [str "Unusual condition value: " ++ c.new_used]
  else []

def bandWarn (c : CarListing) : List Str :=
  if c.price > 0 then priceBandWarnings c else []

def testDataErr (c : CarListing) : List Str :=
  if looksLikeTestData c then [str "Appears to be test/placeholder data"]
  else []

/-- The `errors` list of `DataValidator.validate_listing`, in append order. -/
def errorsOf (c : CarListing) (strict : Bool) (currentYear : Int) : List Str :=
  makeErr c ++ modelErr c ++ yearErr c currentYear ++ priceErr c strict ++
  urlErr c ++ dealerNameErr c ++ dealerSiteErr c ++ electricErr c ++
  fuelErr c ++ mileageErr c ++ testDataErr c

/-- The `warnings` list of `DataValidator.validate_listing`, in append order. -/
def warningsOf (c : CarListing) (strict : Bool) : List Str :=
  priceMissingWarn c strict ++ vinWarn c strict ++ newMileageWarn c ++
  condWarn c ++ bandWarn c

/-- `DataValidator.validate_listing(car, strict)` (validator.py 45-149):
`(is_valid, errors + ["WARNING: " + w for w in warnings])`, with
`currentYear` the ambient `datetime.now().year`. -/
def validate_listing (c : CarListing) (strict : Bool) (currentYear : Int) :
    Bool × List Str :=
  let errors := errorsOf c strict currentYear
  let warnings := warningsOf c strict
  (errors.isEmpty, errors ++ warnings.map (fun w => str "WARNING: " ++ w))

/- ========== Price extraction composite (scraper.py 560-627) ========== -/

/-- The repetition `(?:,[0-9]{3})+` of `PRICE_REGEX`: consume as many
`,ddd` groups as possible (at least one); nothing follows inside the group,
so maximal-greedy needs no backtracking.  Returns (consumed, rest). -/
def commaGroups : Str → Option (Str × Str)
  | ',' :: d1 :: d2 :: d3 :: rest =>
    if isDigitChar d1 && isDigitChar d2 && isDigitChar d3 then
      match commaGroups rest with
      | some (more, rest2) => some (',' :: d1 :: d2 :: d3 :: more, rest2)
      | none => some ([',', d1, d2, d3], rest)
    else none
  | _ => none

/-- One backtracking attempt of `[0-9]{1,3}(?:,[0-9]{3})+` taking exactly `k`
leading digits. -/
def tryCommaAlt (k : Nat) (s : Str) : Option (Str × Str) :=
  let ds := s.take k
  if ds.length = k && ds.all isDigitChar then
    match commaGroups (s.drop k) with
    | some (g, rest) => some (ds ++ g, rest)
    | none => none
  else none

/-- The second alternative `[0-9]+(?:\.[0-9]{2})?` of `PRICE_REGEX`. -/
def plainNumAlt (s : Str) : Option (Str × Str) :=
  let ds := s.takeWhile isDigitChar
  if ds = [] then none
  else
    match s.drop ds.length with
    | '.' :: a :: b :: rest2 =>
      if isDigitChar a && isDigitChar b then some (ds ++ ['.', a, b], rest2)
      else some (ds, s.drop ds.length)
    | _ => some (ds, s.drop ds.length)

/-- A match of `PRICE_REGEX` = `\$\s*(alt1|alt2)` anchored at the current
position: `$`, greedy whitespace, then the first alternative that succeeds
(`{1,3}` greedy, backtracking 3, 2, 1).  Returns (group 1, rest). -/
def priceMatchAt (s : Str) : Option (Str × Str) :=
  match s with
  | '$' :: r0 =>
    let r1 := r0.dropWhile isSpaceChar
    match tryCommaAlt 3 r1 with
    | some g => some g
    | none =>
      match tryCommaAlt 2 r1 with
      | some g => some g
      | none =>
        match tryCommaAlt 1 r1 with
        | some g => some g
        | none => plainNumAlt r1
  | _ => none

/-- `PRICE_REGEX.findall(page_text)`: leftmost, non-overlapping matches,
returning group 1 of each.  Fuel bounds the number of scan steps; each step
consumes at least one character, so `text.length` suffices. -/
def priceFindallAux : Nat → Str → List Str
  | 0, _ => []
  | fuel + 1, s =>
    match s with
    | [] => []
    | c :: rest =>
      if c = '$' then
        match priceMatchAt s with
        | some (g, after) => g :: priceFindallAux fuel after
        | none => priceFindallAux fuel rest
      else priceFindallAux fuel rest

def priceFindall (text : Str) : List Str := priceFindallAux text.length text

/-- `parse_price_to_int` (car_regexes.py 261-273): strip, drop commas, then
`int(float(s))`.  `float` parsing is modelled on the digit/decimal shapes the
price regexes emit (`ddd` or `ddd.dd`); anything else is `None`. -/
def parse_price_to_int (s : Str) : Option Nat :=
  let t := (stripStr s).filter (fun c => c ≠ ',')
  let ip := t.takeWhile isDigitChar
  if ip = [] then none
  else
    match t.drop ip.length with
    | [] => parseNat ip
    | '.' :: fr => if fr ≠ [] && fr.all isDigitChar then parseNat ip else none
    | _ => none

/-- `BaseScraper._extract_price` (scraper.py 261-278): strip `$`, `,`, spaces
and every non-digit/non-dot character, then `float(...)`, with `0.0` on a
parse failure.  Fractional cents never occur in the claims below, so the
value is the integer part. -/
def extract_price_text (s : Str) : Nat :=
  let t := s.filter (fun c => isDigitChar c || c = '.')
  let ip := t.takeWhile isDigitChar
  if ip = [] then 0
  else
    match t.drop ip.length with
    | [] => (parseNat ip).getD 0
    | '.' :: fr => if fr.all isDigitChar then (parseNat ip).getD 0 else 0
    | _ => 0

/-- A match of `re.compile(rf'\$\s*{digits}')` anchored at the current
position: `$`, greedy whitespace, then the literal digit string.  Returns the
number of characters consumed. -/
def dollarLiteralAt (digits : Str) (s : Str) : Option Nat :=
  match s with
  | '$' :: r0 =>
    let sp := r0.takeWhile isSpaceChar
    if startsWith digits (r0.drop sp.length) then
      some (1 + sp.length + digits.length)
    else none
  | _ => none

/-- `finditer` of the above pattern: non-overlapping (start, end) index pairs,
left to right. -/
def dollarIterAux (digits : Str) : Nat → Str → Nat → List (Nat × Nat)
  | 0, _, _ => []
  | _ + 1, [], _ => []
  | fuel + 1, c :: rest, pos =>
    match dollarLiteralAt digits (c :: rest) with
    | some n => (pos, pos + n) :: dollarIterAux digits fuel ((c :: rest).drop n) (pos + n)
    | none => dollarIterAux digits fuel rest (pos + 1)

def dollarIter (digits : Str) (text : Str) : List (Nat × Nat) :=
  dollarIterAux digits text.length text 0

/-- `page_text[a:b]`. -/
def sliceStr (s : Str) (a b : Nat) : Str := (s.drop a).take (b - a)

/-- The three-field result dictionary of `_extract_price_from_page`. -/
structure PageQuotes where
  msrp : Option Nat
  sale_price : Option Nat
  total_price : Option Nat
deriving DecidableEq, Repr

/-- Context classification of one price occurrence
(scraper.py 609-621). -/
def classifyQuote (context : Str) (pv : Nat) (p : PageQuotes) : PageQuotes :=
  if [str "msrp", str "manufacturer", str "sticker",
      str "retail"].any (fun kw => containsStr kw context) then
    (match p.msrp with
     | none => { p with msrp := some pv }
     | some m => if pv > m then { p with msrp := some pv } else p)
  else if [str "sale", str "our price", str "internet", str "e-price",
      str "dealer price", str "special"].any (fun kw => containsStr kw context) then
    -- price_value < (prices['sale_price'] or float('inf')): a stored 0 is
    -- falsy, so it also compares against infinity
    (match p.sale_price with
     | none => { p with sale_price := some pv }
     | some s0 => if s0 = 0 || pv < s0 then { p with sale_price := some pv } else p)
  else if [str "total", str "final", str "out the door",
      str "otd"].any (fun kw => containsStr kw context) then
    { p with total_price := some pv }
  else
    (match p.sale_price with
     | none => { p with sale_price := some pv }
     | some _ => p)

/-- The inner `finditer` loop for one collected amount
(scraper.py 601-621): every occurrence of `\$\s*{str(value)}` in the page
text contributes its ±50-character context. -/
def classifyOccurrences (text : Str) (pv : Nat) (p : PageQuotes) : PageQuotes :=
  (dollarIter (natToStr pv) text).foldl
    (fun p se =>
      let context := lowerStr (sliceStr text (se.1 - 50) (min text.length (se.2 + 50)))
      classifyQuote context pv p)
    p

/-- `GenericDealershipScraper._extract_price_from_page`
(scraper.py 560-627).  The page is its visible text plus the stripped texts
of the keyword-tagged price elements found by `_find_field_by_keywords`
(the DOM search itself is represented by that list of texts). -/
def extract_price_from_page (page_text : Str) (price_element_texts : List Str) :
    PageQuotes :=
  let regex_prices := (priceFindall page_text).filterMap (fun s =>
    match parse_price_to_int s with
    | some v => if v > 0 then some v else none
    | none => none)
  let elem_prices := (price_element_texts.map extract_price_text).filter (0 < ·)
  let all_prices := regex_prices ++ elem_prices
  let p := all_prices.foldl (fun p pv => classifyOccurrences page_text pv p)
    { msrp := none, sale_price := none, total_price := none }
  -- If we have sale_price but no total_price, use sale_price as total
  -- (`prices['sale_price']` is a truthiness test, so 0 does not count).
  if p.total_price = none && (match p.sale_price with
      | none => false
      | some v => v ≠ 0) then
    { p with total_price := p.sale_price }
  else p

/-- A constructible listing with `sale_price = 0.0` and `total_price = 42000`:
zero-dollar sale prices are accepted by `__post_init__`. -/
def zeroSaleListing : CarListing :=
  { dealer_name := str "EV World"
    dealer_website := str "http://evworld.example"
    vehicle_url := str "http://evworld.example/car/1"
    year := 2024
    make := str "Tesla"
    model := str "Model 3"
    sale_price := some 0
    total_price := some 42000
    scraped_at := some 1000 }

/- ================= Concrete records used by witnesses ================= -/

/-- Witness record: VIN `5YJ3E1EA7KF000316`, scraped at time 100. -/
def dedupCarA : CarListing :=
  { dealer_name := str "D1", dealer_website := str "http://d1.example"
    vehicle_url := str "http://d1.example/car/a", year := 2024
    make := str "Tesla", model := str "Model 3"
    vin := some (str "5YJ3E1EA7KF000316"), scraped_at := some 100 }

/-- Witness record: same VIN as `dedupCarA`, different URL, scraped later. -/
def dedupCarB : CarListing :=
  { dealer_name := str "D2", dealer_website := str "http://d2.example"
    vehicle_url := str "http://d2.example/car/b", year := 2024
    make := str "Tesla", model := str "Model 3"
    vin := some (str "5YJ3E1EA7KF000316"), scraped_at := some 200 }

/-- Witness record: no VIN, lower-case URL. -/
def dedupCarC : CarListing :=
  { dealer_name := str "D1", dealer_website := str "http://d1.example"
    vehicle_url := str "http://d1.example/car/x", year := 2024
    make := str "Kia", model := str "EV6", scraped_at := some 100 }

/-- Witness record: no VIN, URL differing from `dedupCarC` only by case and
padding (same normalized URL). -/
def dedupCarD : CarListing :=
  { dealer_name := str "D1", dealer_website := str "http://d1.example"
    vehicle_url := str "HTTP://D1.example/car/X ", year := 2024
    make := str "Kia", model := str "EV6", scraped_at := some 150 }

/-- Witness record: neither VIN nor URL. -/
def dedupCarE : CarListing :=
  { dealer_name := str "D1", dealer_website := str "http://d1.example"
    vehicle_url := [], year := 2024
    make := str "Kia", model := str "EV9", scraped_at := some 120 }

/-- Witness record for the validator claims: a constructible, otherwise
clean electric listing with no price fields at all. -/
def strictGateCar : CarListing :=
  { dealer_name := str "EV Dealer", dealer_website := str "http://ev.example"
    vehicle_url := str "http://ev.example/car/9", year := 2024
    make := str "Tesla", model := str "Model 3", scraped_at := some 50 }

/-- A syntactically valid checkpoint object whose listing array contains an
invalid entry: the completed-source list parses, the first listing does not. -/
def badCheckpointJson : Json :=
  Json.jobj
    [ (str "completed_dealerships", Json.jarr [Json.jstr (str "X")]),
      (str "scraped_listings", Json.jarr [Json.null]) ]

/- ======================= Helper lemmas ======================= -/

theorem dtLookup_mem_values {t v : Str} :
    ∀ {l : List (Str × Str)}, dtLookup t l = some v → v ∈ l.map Prod.snd := by
  intro l
  induction l with
  | nil => intro h; simp [dtLookup] at h
  | cons kv rest ih =>
    intro h
    rw [dtLookup] at h
    by_cases hk : kv.1 = t
    · rw [if_pos hk] at h
      cases h
      simp
    · rw [if_neg hk] at h
      simp [ih h]

theorem find?_snd_mem_values {p : Str × Str → Bool} {kv : Str × Str}
    {l : List (Str × Str)} (h : l.find? p = some kv) : kv.2 ∈ l.map Prod.snd :=
  List.mem_map_of_mem Prod.snd (List.mem_of_find?_eq_some h)

/-- Every non-`none` result of `dtResolve` is a value of the normalization
table, hence one of the four canonical drivetrains. -/
theorem dtResolve_values (t : Str) :
    dtResolve t = none ∨
    dtResolve t ∈ [some (str "AWD"), some (str "FWD"),
      some (str "RWD"), some (str "4WD")] := by
  rw [dtResolve]
  cases hl : dtLookup t DRIVETRAIN_NORMALIZE with
  | some v =>
    right
    have hv := dtLookup_mem_values hl
    simp [DRIVETRAIN_NORMALIZE] at hv
    rcases hv with h | h | h | h <;> simp [h]
  | none =>
    cases hf : DRIVETRAIN_NORMALIZE.find? (fun kv => containsStr kv.1 t) with
    | some kv =>
      right
      have hv := find?_snd_mem_values hf
      simp [DRIVETRAIN_NORMALIZE] at hv
      rcases hv with h | h | h | h <;> simp [h]
    | none => exact Or.inl rfl

/-- Every non-`none` result of `normalize_drivetrain` is one of the four
canonical drivetrains. -/
theorem normalize_drivetrain_values (raw : Option Str) :
    normalize_drivetrain raw = none ∨
    normalize_drivetrain raw ∈ [some (str "AWD"), some (str "FWD"),
      some (str "RWD"), some (str "4WD")] := by
  match raw with
  | none => exact Or.inl rfl
  | some r =>
    by_cases hr : r = []
    · left
      simp [normalize_drivetrain, hr]
    · rw [normalize_drivetrain, if_neg hr]
      exact dtResolve_values (dtNormalizeKey r)

/- ======================= Claim theorems ======================= -/

/-- C8: `normalize_drivetrain` is idempotent (on recognized inputs the
result is one of {AWD, FWD, RWD, 4WD} and re-normalizing is the identity);
unrecognized input — including null and the empty string — yields null, and
the function is total (it never raises). -/
theorem claim_C8_drivetrain_idempotent (raw : Option Str) :
    normalize_drivetrain (normalize_drivetrain raw) = normalize_drivetrain raw ∧
    (normalize_drivetrain raw = none ∨
     normalize_drivetrain raw ∈ [some (str "AWD"), some (str "FWD"),
       some (str "RWD"), some (str "4WD")]) ∧
    normalize_drivetrain none = none ∧
    normalize_drivetrain (some []) = none := by
  refine ⟨?_, normalize_drivetrain_values raw, rfl, by decide⟩
  rcases normalize_drivetrain_values raw with h | h
  · rw [h]; rfl
  · simp only [List.mem_cons, List.mem_singleton, List.not_mem_nil, or_false] at h
    rcases h with h | h | h | h <;> rw [h] <;> decide

/-- C7 (counterexample): the claim "derived price = first non-null of
(sale_price, total_price, msrp)" fails on a constructible listing with
`sale_price = 0.0` and `total_price = 42000`: the code's truthiness test
skips the zero sale price and returns 42000, while the first non-null value
is 0. -/
theorem claim_C7_counterexample :
    zeroSaleListing.price ≠ priceSpecFirstNonNull zeroSaleListing ∧
    zeroSaleListing.price = 42000 ∧
    priceSpecFirstNonNull zeroSaleListing = 0 ∧
    postInitOk zeroSaleListing 2024 = true := by
  refine ⟨by decide, by decide, by decide, by decide⟩

/-- C7 (amended): the derived `price` equals the first non-null *and
non-zero* value among (sale_price, total_price, msrp), and 0 when there is
no such value. -/
theorem claim_C7_price_first_truthy (c : CarListing) :
    c.price = priceFirstTruthy c := by
  rcases hs : c.sale_price with _ | v <;> rcases ht : c.total_price with _ | w <;>
    rcases hm : c.msrp with _ | u <;>
    simp [CarListing.price, priceFirstTruthy, ratTruthy, hs, ht, hm]

/-- C4: two records with the same normalized VIN and timestamps T1 < T2,
presented in that order: with `prefer_latest = true` the survivor is the
later record; with `prefer_latest = false` the survivor is the record
processed first. -/
theorem claim_C4_recency_tie_break (r1 r2 : CarListing) (v1 v2 : Str)
    (t1 t2 : Nat)
    (h1 : r1.vin = some v1) (h2 : r2.vin = some v2)
    (hv1 : v1 ≠ []) (hv2 : v2 ≠ [])
    (hk : normVin v1 = normVin v2)
    (ht1 : r1.scraped_at = some t1) (ht2 : r2.scraped_at = some t2)
    (hlt : t1 < t2) :
    (deduplicate_listings [r1, r2] true).1 = [r2] ∧
    (deduplicate_listings [r1, r2] false).1 = [r1] := by
  have hv1e : v1.isEmpty = false := by cases v1 with
    | nil => exact absurd rfl hv1
    | cons a b => rfl
  have hv2e : v2.isEmpty = false := by cases v2 with
    | nil => exact absurd rfl hv2
    | cons a b => rfl
  constructor
  · cases hu : r1.vehicle_url with
    | nil =>
      simp [deduplicate_listings, dedupStep, vinCheck, urlCheck, strTruthy,
        initDedupState, h1, h2, ht1, ht2, hk, hv1e, hv2e, hu, alookup,
        ainsert, eraseFirst, hlt]
    | cons a b =>
      simp [deduplicate_listings, dedupStep, vinCheck, urlCheck, strTruthy,
        initDedupState, h1, h2, ht1, ht2, hk, hv1e, hv2e, hu, alookup,
        ainsert, eraseFirst, hlt]
  · cases hu : r1.vehicle_url with
    | nil =>
      simp [deduplicate_listings, dedupStep, vinCheck, urlCheck, strTruthy,
        initDedupState, h1, h2, ht1, ht2, hk, hv1e, hv2e, hu, alookup,
        ainsert, eraseFirst]
    | cons a b =>
      simp [deduplicate_listings, dedupStep, vinCheck, urlCheck, strTruthy,
        initDedupState, h1, h2, ht1, ht2, hk, hv1e, hv2e, hu, alookup,
        ainsert, eraseFirst]

/-- C4 witness at concrete records. -/
theorem claim_C4_recency_tie_break_witness :
    (deduplicate_listings [dedupCarA, dedupCarB] true).1 = [dedupCarB] ∧
    (deduplicate_listings [dedupCarA, dedupCarB] false).1 = [dedupCarA] :=
  claim_C4_recency_tie_break dedupCarA dedupCarB
    (str "5YJ3E1EA7KF000316") (str "5YJ3E1EA7KF000316") 100 200
    rfl rfl (by decide) (by decide) rfl rfl rfl (by decide)

theorem strTruthy_some (s : Str) : strTruthy (some s) = !s.isEmpty := rfl

/-- First loop iteration on a record with a truthy VIN and empty maps. -/
theorem dedupStep_init_vin (pl : Bool) (r : CarListing)
    (h : strTruthy r.vin = true) :
    dedupStep pl initDedupState r =
      { seen_by_vin := [(normVin (r.vin.getD []), r)],
        seen_by_url := if r.vehicle_url.isEmpty then []
          else [(normUrl r.vehicle_url, r)],
        dedup := [r], dup_vin := 0, dup_url := 0 } := by
  cases hu : r.vehicle_url with
  | nil =>
    simp [dedupStep, vinCheck, urlCheck, initDedupState, h, hu, alookup,
      ainsert, strTruthy_some]
  | cons a b =>
    simp [dedupStep, vinCheck, urlCheck, initDedupState, h, hu, alookup,
      ainsert, strTruthy_some]

/-- First loop iteration on a VIN-less record with a non-empty URL and empty
maps. -/
theorem dedupStep_init_novin (pl : Bool) (r : CarListing)
    (h : strTruthy r.vin = false) (hu : r.vehicle_url ≠ []) :
    dedupStep pl initDedupState r =
      { seen_by_vin := [], seen_by_url := [(normUrl r.vehicle_url, r)],
        dedup := [r], dup_vin := 0, dup_url := 0 } := by
  have hue : r.vehicle_url.isEmpty = false := by
    cases hv : r.vehicle_url with
    | nil => exact absurd hv hu
    | cons a b => rfl
  simp [dedupStep, vinCheck, urlCheck, initDedupState, h, hue, alookup,
    ainsert, strTruthy_some]

/-- A loop iteration on a record whose normalized VIN is already the sole
entry of the VIN map and the sole survivor keeps the survivor list at one
element (replace or discard). -/
theorem dedupStep_vin_dup_len (pl : Bool) (r1 r2 : CarListing) (key : Str)
    (su : List (Str × CarListing)) (a b : Nat)
    (h2 : strTruthy r2.vin = true)
    (hkey : normVin (r2.vin.getD []) = key) :
    ((dedupStep pl { seen_by_vin := [(key, r1)], seen_by_url := su, dedup := [r1], dup_vin := a, dup_url := b } r2).dedup).length = 1 := by
  simp only [dedupStep, vinCheck, h2, hkey, alookup, if_true, if_pos rfl]
  split_ifs <;> simp [eraseFirst, ainsert]

/-- A loop iteration on a VIN-less record whose normalized URL is already the
sole entry of the URL map keeps the survivor list at one element. -/
theorem dedupStep_url_dup_len (pl : Bool) (r1 r2 : CarListing) (key : Str)
    (sv : List (Str × CarListing)) (a b : Nat)
    (h2 : strTruthy r2.vin = false)
    (hu2 : r2.vehicle_url ≠ [])
    (hkey : normUrl r2.vehicle_url = key) :
    ((dedupStep pl { seen_by_vin := sv, seen_by_url := [(key, r1)], dedup := [r1], dup_vin := a, dup_url := b } r2).dedup).length = 1 := by
  have hue : r2.vehicle_url.isEmpty = false := by
    cases hv : r2.vehicle_url with
    | nil => exact absurd hv hu2
    | cons a b => rfl
  simp only [dedupStep, vinCheck, urlCheck, h2, hue, hkey, alookup,
    Bool.false_eq_true, if_false, if_pos rfl, strTruthy_some, Bool.not_false,
    if_true]
  split_ifs <;> simp_all [eraseFirst, ainsert]

/-- C5: (i) two records with the same normalized VIN but different URLs
collapse to one survivor; (ii) two VIN-less records with the same normalized
URL collapse to one survivor; (iii) a record with neither VIN nor URL is
always appended to the survivor list and never counted as a duplicate
(neither duplicate counter moves). -/
theorem claim_C5_vin_priority :
    (∀ (pl : Bool) (r1 r2 : CarListing) (v1 v2 : Str),
      r1.vin = some v1 → r2.vin = some v2 → v1 ≠ [] → v2 ≠ [] →
      normVin v1 = normVin v2 → r1.vehicle_url ≠ r2.vehicle_url →
      ((deduplicate_listings [r1, r2] pl).1).length = 1) ∧
    (∀ (pl : Bool) (r1 r2 : CarListing),
      strTruthy r1.vin = false → strTruthy r2.vin = false →
      r1.vehicle_url ≠ [] → r2.vehicle_url ≠ [] →
      normUrl r1.vehicle_url = normUrl r2.vehicle_url →
      ((deduplicate_listings [r1, r2] pl).1).length = 1) ∧
    (∀ (pl : Bool) (cars : List CarListing) (r : CarListing),
      strTruthy r.vin = false → r.vehicle_url = [] →
      (deduplicate_listings (cars ++ [r]) pl).1 =
        (deduplicate_listings cars pl).1 ++ [r] ∧
      (deduplicate_listings (cars ++ [r]) pl).2.duplicates_by_vin =
        (deduplicate_listings cars pl).2.duplicates_by_vin ∧
      (deduplicate_listings (cars ++ [r]) pl).2.duplicates_by_url =
        (deduplicate_listings cars pl).2.duplicates_by_url) := by
  refine ⟨?_, ?_, ?_⟩
  · intro pl r1 r2 v1 v2 h1 h2 hv1 hv2 hk _hurl
    have hv1e : v1.isEmpty = false := by cases v1 with
      | nil => exact absurd rfl hv1
      | cons a b => rfl
    have ht1 : strTruthy r1.vin = true := by rw [h1, strTruthy_some, hv1e]; rfl
    have ht2 : strTruthy r2.vin = true := by
      rw [h2, strTruthy_some]
      cases v2 with
      | nil => exact absurd rfl hv2
      | cons a b => rfl
    have hfold : (deduplicate_listings [r1, r2] pl).1 =
        (dedupStep pl (dedupStep pl initDedupState r1) r2).dedup := rfl
    rw [deduplicate_listings]
    show ((dedupStep pl (dedupStep pl initDedupState r1) r2).dedup).length = 1
    rw [dedupStep_init_vin pl r1 ht1]
    refine dedupStep_vin_dup_len pl r1 r2 _ _ 0 0 ht2 ?_
    rw [h1, h2]
    exact hk.symm
  · intro pl r1 r2 h1 h2 hu1 hu2 hk
    rw [deduplicate_listings]
    show ((dedupStep pl (dedupStep pl initDedupState r1) r2).dedup).length = 1
    rw [dedupStep_init_novin pl r1 h1 hu1]
    exact dedupStep_url_dup_len pl r1 r2 _ _ 0 0 h2 hu2 hk.symm
  · intro pl cars r hvin hurl
    refine ⟨?_, ?_, ?_⟩ <;>
      simp [deduplicate_listings, List.foldl_append, dedupStep, vinCheck,
        urlCheck, hvin, hurl, strTruthy_some]

/-- C5 witness at concrete records (one instance of each conjunct). -/
theorem claim_C5_vin_priority_witness :
    ((deduplicate_listings [dedupCarA, dedupCarB] true).1).length = 1 ∧
    ((deduplicate_listings [dedupCarC, dedupCarD] true).1).length = 1 ∧
    (deduplicate_listings ([dedupCarC] ++ [dedupCarE]) true).1 =
      (deduplicate_listings [dedupCarC] true).1 ++ [dedupCarE] :=
  ⟨claim_C5_vin_priority.1 true dedupCarA dedupCarB
      (str "5YJ3E1EA7KF000316") (str "5YJ3E1EA7KF000316")
      rfl rfl (by decide) (by decide) rfl (by decide),
   claim_C5_vin_priority.2.1 true dedupCarC dedupCarD
      rfl rfl (by decide) (by decide) (by decide),
   (claim_C5_vin_priority.2.2 true [dedupCarC] dedupCarE rfl rfl).1⟩

theorem word_of_alnum (c : Char) (h : c.isAlphanum = true) :
    isWordChar c = true := by
  simp [isWordChar, h]

theorem not_space_of_alnum (c : Char) (h : c.isAlphanum = true) :
    isSpaceChar c = false := by
  by_contra hs
  rw [Bool.not_eq_false] at hs
  simp only [isSpaceChar, Bool.or_eq_true, decide_eq_true_eq] at hs
  rcases hs with ((((h1 | h1) | h1) | h1) | h1) | h1 <;> subst h1 <;>
    exact absurd h (by decide)

theorem dropWhile_isSpace_of_alnum (t : Str) (h : t.all Char.isAlphanum = true) :
    t.dropWhile isSpaceChar = t := by
  cases t with
  | nil => rfl
  | cons c cs =>
    rw [List.all_cons, Bool.and_eq_true] at h
    rw [List.dropWhile_cons, if_neg]
    rw [not_space_of_alnum c h.1]
    simp

theorem stripStr_of_alnum (t : Str) (h : t.all Char.isAlphanum = true) :
    stripStr t = t := by
  rw [stripStr, dropWhile_isSpace_of_alnum t h,
    dropWhile_isSpace_of_alnum t.reverse (by simpa using h), List.reverse_reverse]

/-- Scanning inside an alphanumeric token: while the previous character is a
word character, the leading `\b` can never hold, so no match starts before
the trailing space. -/
theorem vinSearchAux_inside (t : Str) :
    ∀ p : Char, isWordChar p = true → t.all isWordChar = true →
    vinSearchAux (some p) (t ++ [' ']) = none := by
  induction t with
  | nil =>
    intro p _ _
    simp [vinSearchAux, vinMatchHere]
  | cons c cs ih =>
    intro p hp ht
    rw [List.all_cons, Bool.and_eq_true] at ht
    rw [List.cons_append, vinSearchAux]
    have hm : vinMatchHere (some p) (c :: (cs ++ [' '])) = none := by
      simp [vinMatchHere, hp]
    rw [hm]
    exact ih c ht.1 ht.2

/-- At the position right after a non-word character, a 17-character token
followed by a space matches `VIN_REGEX` exactly when all its characters are
in the VIN alphabet. -/
theorem vinMatchHere_token (t : Str) (hlen : t.length = 17) :
    vinMatchHere (some ' ') (t ++ [' ']) =
      if t.all isVinChar = true then some t else none := by
  have htok : (t ++ [' ']).take 17 = t := by
    rw [← hlen]
    exact List.take_left t [' ']
  have hdrop : (t ++ [' ']).drop 17 = [' '] := by
    rw [← hlen]
    exact List.drop_left t [' ']
  have hbw : isWordChar ' ' = false := by decide
  rw [vinMatchHere]
  simp only [htok, hdrop, hbw, Bool.not_false, Bool.and_true, hlen]
  cases hv : t.all isVinChar with
  | true => simp [hv]
  | false => simp [hv]

/-- The leftmost VIN search over a standalone alphanumeric 17-character token
(surrounded by spaces) succeeds exactly on the VIN alphabet, returning the
token itself. -/
theorem vin_first_group_token (t : Str) (hlen : t.length = 17)
    (halnum : t.all Char.isAlphanum = true) :
    vin_first_group (' ' :: (t ++ [' '])) =
      if t.all isVinChar = true then some t else none := by
  have hword : t.all isWordChar = true := by
    rw [List.all_eq_true] at halnum ⊢
    exact fun c hc => word_of_alnum c (halnum c hc)
  have h0 : vinMatchHere none (' ' :: (t ++ [' '])) = none := by
    have hsp : isVinChar ' ' = false := by decide
    rw [vinMatchHere]
    simp [List.take_succ_cons, hsp]
  rw [vin_first_group, vinSearchAux, h0]
  cases t with
  | nil => simp at hlen
  | cons c cs =>
    have hm := vinMatchHere_token (c :: cs) hlen
    rw [List.cons_append] at hm ⊢
    rw [vinSearchAux, hm]
    rw [List.all_cons, Bool.and_eq_true] at hword
    by_cases hv : (c :: cs).all isVinChar = true
    · rw [if_pos hv]
      simp [stripStr_of_alnum _ halnum]
    · rw [if_neg hv]
      simp [vinSearchAux_inside cs c hword.1 hword.2]

/-- C9: on a page consisting of a standalone word-boundary-delimited
17-character alphanumeric token, VIN extraction returns the token when its
alphabet is `[A-HJ-NPR-Z0-9]`, and returns no match when the token contains
`I`, `O`, or `Q`. -/
theorem claim_C9_vin_exactness (t : Str) (hlen : t.length = 17)
    (halnum : t.all Char.isAlphanum = true) :
    (t.all isVinChar = true → vin_first_group (' ' :: (t ++ [' '])) = some t) ∧
    ((t.any fun c => c = 'I' || c = 'O' || c = 'Q') = true →
      vin_first_group (' ' :: (t ++ [' '])) = none) := by
  constructor
  · intro hv
    rw [vin_first_group_token t hlen halnum, if_pos hv]
  · intro hioq
    have hv : t.all isVinChar = false := by
      rw [List.any_eq_true] at hioq
      obtain ⟨c, hc, hq⟩ := hioq
      rw [Bool.or_eq_true, Bool.or_eq_true] at hq
      rcases hq with (h1 | h1) | h1 <;>
        rw [decide_eq_true_eq] at h1 <;> subst h1 <;>
        · rw [List.all_eq_false]
          exact ⟨_, hc, by decide⟩
    rw [vin_first_group_token t hlen halnum, if_neg]
    rw [hv]
    simp

/-- C9 witness: a valid 17-character VIN is extracted; the same token with
its final character replaced by `I` is not. -/
theorem claim_C9_vin_exactness_witness :
    vin_first_group (' ' :: (str "5YJ3E1EA7KF000316" ++ [' '])) =
      some (str "5YJ3E1EA7KF000316") ∧
    vin_first_group (' ' :: (str "5YJ3E1EA7KF00031I" ++ [' '])) = none :=
  ⟨(claim_C9_vin_exactness (str "5YJ3E1EA7KF000316") (by decide) (by decide)).1
      (by decide),
   (claim_C9_vin_exactness (str "5YJ3E1EA7KF00031I") (by decide) (by decide)).2
      (by decide)⟩

/-- C1: on the spec's own example text (comma-formatted dollar amounts and no
other dollar amounts, no keyword-tagged price elements), the price composite
returns no prices at all, not msrp=45000/sale=41500/total=41500: the
collection pass does find the amounts 45000 and 41500, but the
classification pass searches the page for the comma-less rendering
(`\$\s*45000`), which never occurs in the comma-formatted text, so no
occurrence is ever classified.  On the same page written without thousands
separators (and with the amounts more than 50 characters apart) the composite
returns exactly the claimed values, confirming the claim describes the
intended behavior. -/
theorem claim_C1_price_classification_bug :
    extract_price_from_page (str "MSRP $45,000 ... Sale Price $41,500") [] =
      ⟨none, none, none⟩ ∧
    ((priceFindall (str "MSRP $45,000 ... Sale Price $41,500")).map
      parse_price_to_int = [some 45000, some 41500]) ∧
    extract_price_from_page
      (str "MSRP $45000 xxxxxxxxxxxxxxxxxxxxxxxxxxxxxxxxxxxxxxxxxxxxxxxxxxxxxxxxxxxxxxxx Sale Price $41500")
      [] = ⟨some 45000, some 41500, some 41500⟩ := by
  refine ⟨by decide, by decide, by decide⟩

theorem take_append_left (p a : List Char) (n : Nat) (h : n ≤ p.length) :
    (p ++ a).take n = p.take n := by
  rw [List.take_append_eq_append_take, Nat.sub_eq_zero_of_le h, List.take_zero,
    List.append_nil]

theorem ne_of_take_ne (M T : List Char) (n : Nat) (h : M.take n ≠ T.take n) :
    M ≠ T := fun he => h (by rw [he])

/-- A message of the form `p ++ a` differs from the year-too-far message as
soon as some prefix of `p` differs from the corresponding prefix of the
latter's literal part. -/
theorem msg_ne_yearTooFar (n : Nat) (p a : List Char) (y : Int)
    (hn : n ≤ p.length) (hn2 : n ≤ (str "Year too far in future: ").length)
    (hp : p.take n ≠ (str "Year too far in future: ").take n) :
    p ++ a ≠ str "Year too far in future: " ++ intToStr y := by
  apply ne_of_take_ne _ _ n
  rw [take_append_left _ _ _ hn, take_append_left _ _ _ hn2]
  exact hp

/-- Literal-message version of `msg_ne_yearTooFar`. -/
theorem lit_ne_yearTooFar (n : Nat) (p : List Char) (y : Int)
    (hn : n ≤ p.length) (hn2 : n ≤ (str "Year too far in future: ").length)
    (hp : p.take n ≠ (str "Year too far in future: ").take n) :
    p ≠ str "Year too far in future: " ++ intToStr y := by
  have h := msg_ne_yearTooFar n p [] y hn hn2 hp
  rwa [List.append_nil] at h

/-- The electric-likelihood error message never coincides with the
year-too-far message. -/
theorem electric_msg_ne_yearTooFar (y2 : Int) (mk md : List Char) (y : Int) :
    str "Vehicle does not appear to be electric: " ++ intToStr y2 ++
      str " " ++ mk ++ str " " ++ md ≠
    str "Year too far in future: " ++ intToStr y := by
  have hp40 : (str "Vehicle does not appear to be electric: ").length = 40 := by
    decide
  apply msg_ne_yearTooFar 1
  · simp only [List.length_append, hp40]
    omega
  · decide
  · have h1 : 1 ≤ (str "Vehicle does not appear to be electric: " ++
        intToStr y2).length := by
      simp only [List.length_append, hp40]; omega
    have h2 : 1 ≤ (str "Vehicle does not appear to be electric: " ++
        intToStr y2 ++ str " ").length := by
      simp only [List.length_append, hp40]; omega
    have h3 : 1 ≤ (str "Vehicle does not appear to be electric: " ++
        intToStr y2 ++ str " " ++ mk).length := by
      simp only [List.length_append, hp40]; omega
    rw [take_append_left _ _ _ h3, take_append_left _ _ _ h2,
      take_append_left _ _ _ h1, take_append_left _ _ _ (by omega)]
    decide

/-- The year-too-far error can only enter the validator's error list through
its own branch, whose guard requires `year > currentYear + 2`. -/
theorem yearTooFar_mem_errorsOf (c : CarListing) (strict : Bool) (y : Int)
    (hmem : (str "Year too far in future: " ++ intToStr c.year) ∈
      errorsOf c strict y) :
    c.year > y + 2 := by
  rw [errorsOf] at hmem
  simp only [List.mem_append] at hmem
  rcases hmem with ((((((((((h | h) | h) | h) | h) | h) | h) | h) | h) | h) | h)
  · rw [makeErr] at h
    split at h
    · simp only [List.mem_singleton] at h
      exact absurd h.symm (lit_ne_yearTooFar 1 _ _ (by decide) (by decide) (by decide))
    · simp at h
  · rw [modelErr] at h
    split at h
    · simp only [List.mem_singleton] at h
      exact absurd h.symm (lit_ne_yearTooFar 1 _ _ (by decide) (by decide) (by decide))
    · simp at h
  · rw [yearErr] at h
    split at h
    · simp only [List.mem_singleton] at h
      exact absurd h.symm (msg_ne_yearTooFar 10 _ _ _ (by decide) (by decide) (by decide))
    · split at h
      · next hgt => exact hgt
      · simp at h
  · rw [priceErr] at h
    split at h
    · split at h
      · simp only [List.mem_singleton] at h
        exact absurd h.symm (lit_ne_yearTooFar 1 _ _ (by decide) (by decide) (by decide))
      · simp at h
    · split at h
      · simp only [List.mem_singleton] at h
        exact absurd h.symm (msg_ne_yearTooFar 1 _ _ _ (by decide) (by decide) (by decide))
      · split at h
        · simp only [List.mem_singleton] at h
          exact absurd h.symm (msg_ne_yearTooFar 1 _ _ _ (by decide) (by decide) (by decide))
        · simp at h
  · rw [urlErr] at h
    split at h
    · simp only [List.mem_singleton] at h
      exact absurd h.symm (lit_ne_yearTooFar 1 _ _ (by decide) (by decide) (by decide))
    · simp at h
  · rw [dealerNameErr] at h
    split at h
    · simp only [List.mem_singleton] at h
      exact absurd h.symm (lit_ne_yearTooFar 1 _ _ (by decide) (by decide) (by decide))
    · simp at h
  · rw [dealerSiteErr] at h
    split at h
    · simp only [List.mem_singleton] at h
      exact absurd h.symm (lit_ne_yearTooFar 1 _ _ (by decide) (by decide) (by decide))
    · simp at h
  · rw [electricErr] at h
    split at h
    · simp only [List.mem_singleton] at h
      exact absurd h.symm (electric_msg_ne_yearTooFar _ _ _ _)
    · simp at h
  · rw [fuelErr] at h
    split at h
    · simp at h
    · split at h
      · simp at h
      · split at h
        · split at h
          · simp only [List.mem_singleton] at h
            exact absurd h.symm (msg_ne_yearTooFar 1 _ _ _ (by decide) (by decide) (by decide))
          · simp at h
        · simp at h
  · rw [mileageErr] at h
    split at h
    · simp at h
    · simp only [List.mem_append] at h
      rcases h with h | h
      · split at h
        · simp only [List.mem_singleton] at h
          exact absurd h.symm (msg_ne_yearTooFar 1 _ _ _ (by decide) (by decide) (by decide))
        · simp at h
      · split at h
        · simp only [List.mem_singleton] at h
          exact absurd h.symm (msg_ne_yearTooFar 1 _ _ _ (by decide) (by decide) (by decide))
        · simp at h
  · rw [testDataErr] at h
    split at h
    · simp only [List.mem_singleton] at h
      exact absurd h.symm (lit_ne_yearTooFar 1 _ _ (by decide) (by decide) (by decide))
    · simp at h

/-- C10: on any constructible record (year ≤ currentYear + 1 enforced by
`__post_init__`), the validator's "Year too far in future" error — whose
branch requires year > currentYear + 2 — can never appear among the issues,
for either strictness. -/
theorem claim_C10_year_error_unreachable (c : CarListing) (y : Int)
    (strict : Bool) (hc : postInitOk c y = true) :
    (str "Year too far in future: " ++ intToStr c.year) ∉
      (validate_listing c strict y).2 := by
  have hy : c.year ≤ y + 1 := by
    simp only [postInitOk, Bool.and_eq_true, decide_eq_true_eq] at hc
    tauto
  intro hmem
  simp only [validate_listing, List.mem_append] at hmem
  rcases hmem with h | h
  · have := yearTooFar_mem_errorsOf c strict y h
    omega
  · rw [List.mem_map] at h
    obtain ⟨w, _, hw⟩ := h
    exact absurd hw (msg_ne_yearTooFar 9 _ _ _ (by decide) (by decide)
      (by decide))

/-- C10 witness at a concrete constructible record. -/
theorem claim_C10_year_error_unreachable_witness :
    (str "Year too far in future: " ++ intToStr strictGateCar.year) ∉
      (validate_listing strictGateCar false 2024).2 :=
  claim_C10_year_error_unreachable strictGateCar 2024 false (by decide)

/-- C6: a record whose effective price is 0 and which triggers no other hard
error is valid under `strict = false`, with the missing-price issue demoted
to a warning, and invalid under `strict = true` with the missing-price
error. -/
theorem claim_C6_strictness_gate (c : CarListing) (y : Int)
    (hp : c.price = 0)
    (hvalid : (validate_listing c false y).1 = true) :
    (validate_listing c false y).1 = true ∧
    (str "WARNING: " ++ (str "Missing price - may be " ++
      (apos :: str "call for price") ++ (apos :: str " listing"))) ∈
      (validate_listing c false y).2 ∧
    (validate_listing c true y).1 = false ∧
    (str "Missing or zero price") ∈ (validate_listing c true y).2 := by
  have herr : errorsOf c false y = [] := by
    simp only [validate_listing] at hvalid
    simpa [List.isEmpty_iff] using hvalid
  have hblocks := herr
  rw [errorsOf] at hblocks
  simp only [List.append_eq_nil] at hblocks
  obtain ⟨⟨⟨⟨⟨⟨⟨⟨⟨⟨h1, h2⟩, h3⟩, _h4⟩, h5⟩, h6⟩, h7⟩, h8⟩, h9⟩, h10⟩, h11⟩ :=
    hblocks
  have hpe : priceErr c true = [str "Missing or zero price"] := by
    simp [priceErr, hp]
  have herrtrue : errorsOf c true y = [str "Missing or zero price"] := by
    rw [errorsOf, h1, h2, h3, hpe, h5, h6, h7, h8, h9, h10, h11]
    rfl
  refine ⟨hvalid, ?_, ?_, ?_⟩
  · have hw : (str "Missing price - may be " ++ (apos :: str "call for price")
        ++ (apos :: str " listing")) ∈ warningsOf c false := by
      rw [warningsOf]
      apply List.mem_append_left
      apply List.mem_append_left
      apply List.mem_append_left
      apply List.mem_append_left
      simp [priceMissingWarn, hp]
    simp only [validate_listing]
    rw [herr, List.nil_append]
    exact List.mem_map_of_mem _ hw
  · simp only [validate_listing]
    rw [herrtrue]
    rfl
  · simp only [validate_listing]
    rw [herrtrue]
    simp

/-- C6 witness at a concrete price-less but otherwise clean record. -/
theorem claim_C6_strictness_gate_witness :
    (validate_listing strictGateCar false 2024).1 = true ∧
    (str "WARNING: " ++ (str "Missing price - may be " ++
      (apos :: str "call for price") ++ (apos :: str " listing"))) ∈
      (validate_listing strictGateCar false 2024).2 ∧
    (validate_listing strictGateCar true 2024).1 = false ∧
    (str "Missing or zero price") ∈ (validate_listing strictGateCar true 2024).2 :=
  claim_C6_strictness_gate strictGateCar 2024 (by decide) (by decide)

theorem digitVal_digitChar (n : Nat) (h : n < 10) :
    digitVal (Nat.digitChar n) = some n := by
  interval_cases n <;> rfl

theorem parseNatAux_append (a : Str) :
    ∀ (b : Str) (acc v : Nat), parseNatAux a acc = some v →
    parseNatAux (a ++ b) acc = parseNatAux b v := by
  induction a with
  | nil =>
    intro b acc v h
    rw [parseNatAux] at h
    cases h
    rfl
  | cons c r ih =>
    intro b acc v h
    rw [parseNatAux] at h
    rw [List.cons_append, parseNatAux]
    cases hd : digitVal c with
    | none => rw [hd] at h; cases h
    | some d =>
      rw [hd] at h
      exact ih b (acc * 10 + d) v h

theorem natToStrAux_parse (fuel : Nat) :
    ∀ (n acc : Nat), n < fuel →
    parseNatAux (natToStrAux fuel n) acc =
      some (acc * 10 ^ (natToStrAux fuel n).length + n) := by
  induction fuel with
  | zero => intro n acc h; omega
  | succ f ih =>
    intro n acc h
    rw [natToStrAux]
    by_cases h10 : n < 10
    · rw [if_pos h10]
      simp [parseNatAux, digitVal_digitChar n h10]
    · rw [if_neg h10]
      have hdiv : n / 10 < f := by
        have h1 : n / 10 < n := Nat.div_lt_self (by omega) (by omega)
        omega
      have hmod : n % 10 < 10 := Nat.mod_lt n (by omega)
      have hIH := ih (n / 10) acc hdiv
      rw [parseNatAux_append _ _ _ _ hIH]
      simp only [parseNatAux, digitVal_digitChar _ hmod, List.length_append]
      congr 1
      have hdm := Nat.div_add_mod n 10
      simp [List.length_singleton, pow_succ]
      ring_nf
      omega

theorem natToStr_ne_nil (n : Nat) : natToStr n ≠ [] := by
  rw [natToStr, natToStrAux]
  by_cases h10 : n < 10
  · rw [if_pos h10]
    simp
  · rw [if_neg h10]
    simp

/-- Decimal round-trip: parsing the rendering of a natural number gives it
back (the model of `fromisoformat ∘ isoformat = id`). -/
theorem parseNat_natToStr (n : Nat) : parseNat (natToStr n) = some n := by
  have h := natToStrAux_parse (n + 1) n 0 (by omega)
  rw [← natToStr] at h
  cases hs : natToStr n with
  | nil => exact absurd hs (natToStr_ne_nil n)
  | cons c r =>
    rw [parseNat]
    rw [hs] at h
    simpa using h

theorem jToStr_enc (s : Str) : jToStr (some (Json.jstr s)) = some s := rfl

theorem jToInt_enc (n : Int) : jToInt (some (Json.jint n)) = some n := rfl

theorem jToOptStr_enc (o : Option Str) :
    jToOptStr (some (jOfOptStr o)) = some o := by cases o <;> rfl

theorem jToOptNum_enc (o : Option Rat) :
    jToOptNum (some (jOfOptNum o)) = some o := by cases o <;> rfl

theorem jToOptInt_enc (o : Option Int) :
    jToOptInt (some (jOfOptInt o)) = some o := by cases o <;> rfl

theorem mapM_decStrJson (l : List Str) :
    (l.map Json.jstr).mapM decStrJson = some l := by
  induction l with
  | nil => rfl
  | cons s rest ih =>
    rw [List.map_cons, List.mapM_cons, ih]
    rfl

theorem jToStrList_enc (l : List Str) :
    jToStrList (some (Json.jarr (l.map Json.jstr))) = some l := by
  show (l.map Json.jstr).mapM decStrJson = some l
  exact mapM_decStrJson l

theorem decodeA_enc (c : CarListing) :
    decodeA (encFields c) = some
      { dealer_name := c.dealer_name, dealer_website := c.dealer_website,
        vehicle_url := c.vehicle_url, year := c.year, make := c.make,
        model := c.model, trim := c.trim, new_used := c.new_used,
        fuel_type := c.fuel_type, drivetrain := c.drivetrain } := by
  have l0 : jlookup (str "dealer_name") (encFields c) =
      some (Json.jstr c.dealer_name) := rfl
  have l1 : jlookup (str "dealer_website") (encFields c) =
      some (Json.jstr c.dealer_website) := rfl
  have l2 : jlookup (str "vehicle_url") (encFields c) =
      some (Json.jstr c.vehicle_url) := rfl
  have l3 : jlookup (str "year") (encFields c) =
      some (Json.jint c.year) := rfl
  have l4 : jlookup (str "make") (encFields c) =
      some (Json.jstr c.make) := rfl
  have l5 : jlookup (str "model") (encFields c) =
      some (Json.jstr c.model) := rfl
  have l6 : jlookup (str "trim") (encFields c) =
      some (jOfOptStr c.trim) := rfl
  have l7 : jlookup (str "new_used") (encFields c) =
      some (Json.jstr c.new_used) := rfl
  have l8 : jlookup (str "fuel_type") (encFields c) =
      some (jOfOptStr c.fuel_type) := rfl
  have l9 : jlookup (str "drivetrain") (encFields c) =
      some (jOfOptStr c.drivetrain) := rfl
  simp only [decodeA, l0, l1, l2, l3, l4, l5, l6, l7, l8, l9, jToStr_enc, jToInt_enc,
    jToOptStr_enc, Option.some_bind]
  rfl

theorem decodeB_enc (c : CarListing) :
    decodeB (encFields c) = some
      { transmission := c.transmission, body_style := c.body_style,
        msrp := c.msrp, sale_price := c.sale_price,
        total_price := c.total_price, currency := c.currency,
        price_note := c.price_note, vin := c.vin,
        stock_number := c.stock_number, mileage := c.mileage } := by
  have l0 : jlookup (str "transmission") (encFields c) =
      some (jOfOptStr c.transmission) := rfl
  have l1 : jlookup (str "body_style") (encFields c) =
      some (jOfOptStr c.body_style) := rfl
  have l2 : jlookup (str "msrp") (encFields c) =
      some (jOfOptNum c.msrp) := rfl
  have l3 : jlookup (str "sale_price") (encFields c) =
      some (jOfOptNum c.sale_price) := rfl
  have l4 : jlookup (str "total_price") (encFields c) =
      some (jOfOptNum c.total_price) := rfl
  have l5 : jlookup (str "currency") (encFields c) =
      some (Json.jstr c.currency) := rfl
  have l6 : jlookup (str "price_note") (encFields c) =
      some (jOfOptStr c.price_note) := rfl
  have l7 : jlookup (str "vin") (encFields c) =
      some (jOfOptStr c.vin) := rfl
  have l8 : jlookup (str "stock_number") (encFields c) =
      some (jOfOptStr c.stock_number) := rfl
  have l9 : jlookup (str "mileage") (encFields c) =
      some (jOfOptInt c.mileage) := rfl
  simp only [decodeB, l0, l1, l2, l3, l4, l5, l6, l7, l8, l9, jToStr_enc, jToOptStr_enc,
    jToOptNum_enc, jToOptInt_enc, Option.some_bind]
  rfl

theorem decodeC_enc (c : CarListing) :
    decodeC (encFields c) = some
      { mileage_units := c.mileage_units, in_stock_status := c.in_stock_status,
        exterior_color := c.exterior_color, interior_color := c.interior_color,
        dealer_location_city := c.dealer_location_city,
        dealer_location_state := c.dealer_location_state, images := c.images,
        description := c.description, features := c.features,
        scraped_at := c.scraped_at } := by
  have l0 : jlookup (str "mileage_units") (encFields c) =
      some (Json.jstr c.mileage_units) := rfl
  have l1 : jlookup (str "in_stock_status") (encFields c) =
      some (jOfOptStr c.in_stock_status) := rfl
  have l2 : jlookup (str "exterior_color") (encFields c) =
      some (jOfOptStr c.exterior_color) := rfl
  have l3 : jlookup (str "interior_color") (encFields c) =
      some (jOfOptStr c.interior_color) := rfl
  have l4 : jlookup (str "dealer_location_city") (encFields c) =
      some (jOfOptStr c.dealer_location_city) := rfl
  have l5 : jlookup (str "dealer_location_state") (encFields c) =
      some (jOfOptStr c.dealer_location_state) := rfl
  have l6 : jlookup (str "images") (encFields c) =
      some (Json.jarr (c.images.map Json.jstr)) := rfl
  have l7 : jlookup (str "description") (encFields c) =
      some (jOfOptStr c.description) := rfl
  have l8 : jlookup (str "features") (encFields c) =
      some (Json.jarr (c.features.map Json.jstr)) := rfl
  have lsc : jlookup (str "scraped_at") (encFields c) =
      some (match c.scraped_at with
        | some t => Json.jstr (isoformat t)
        | none => Json.null) := rfl
  rcases ht : c.scraped_at with _ | t
  · rw [ht] at lsc
    simp only [decodeC, l0, l1, l2, l3, l4, l5, l6, l7, l8, lsc, jToStr_enc, jToOptStr_enc,
      jToStrList_enc, Option.some_bind, ht]
    rfl
  · rw [ht] at lsc
    simp only [decodeC, l0, l1, l2, l3, l4, l5, l6, l7, l8, lsc, jToStr_enc, jToOptStr_enc,
      jToStrList_enc, Option.some_bind, ht, isoformat, fromisoformat,
      parseNat_natToStr, Option.map_some]
    rfl

/-- Decoding an encoded listing restores it exactly, provided the listing is
constructible under the ambient year (the re-run `__post_init__` check). -/
theorem decodeListing_encodeListing (c : CarListing) (y : Int)
    (h : postInitOk c y = true) :
    decodeListing (encodeListing c) y = some c := by
  rw [encodeListing, decodeListing, decodeA_enc, decodeB_enc, decodeC_enc]
  show (if postInitOk c y = true then some c else none) = some c
  simp [h]

theorem getCompleted_save (completed : List Str) (records : List CarListing)
    (start_time : Option Nat) (now : Nat) :
    getCompleted (saveFields completed records start_time now) =
      some completed := by
  show (completed.map Json.jstr).mapM decStrJson = some completed
  exact mapM_decStrJson completed

theorem getListingsRaw_save (completed : List Str) (records : List CarListing)
    (start_time : Option Nat) (now : Nat) :
    getListingsRaw (saveFields completed records start_time now) =
      some (records.map encodeListing) := rfl

theorem getStart_save (completed : List Str) (records : List CarListing)
    (start_time : Option Nat) (now : Nat) :
    getTimeField (str "start_time") (saveFields completed records start_time now) =
      some (some (start_time.getD now)) := by
  show (fromisoformat (isoformat (start_time.getD now))).map some =
    some (some (start_time.getD now))
  rw [isoformat, fromisoformat, parseNat_natToStr]
  rfl

theorem getLast_save (completed : List Str) (records : List CarListing)
    (start_time : Option Nat) (now : Nat) :
    getTimeField (str "last_update") (saveFields completed records start_time now) =
      some (some now) := by
  show (fromisoformat (isoformat now)).map some = some (some now)
  rw [isoformat, fromisoformat, parseNat_natToStr]
  rfl

theorem decodeListings_encode (y : Int) (records : List CarListing)
    (h : ∀ r ∈ records, postInitOk r y = true) :
    ∀ acc, decodeListings (records.map encodeListing) y acc =
      (acc ++ records, true) := by
  induction records with
  | nil => intro acc; simp [decodeListings]
  | cons r rest ih =>
    intro acc
    rw [List.map_cons, decodeListings,
      decodeListing_encodeListing r y (h r (by simp))]
    show decodeListings (rest.map encodeListing) y (acc ++ [r]) =
      (acc ++ r :: rest, true)
    rw [ih (fun x hx => h x (by simp [hx])) (acc ++ [r])]
    simp

/-- C2: saving a set of completed sources and a list of constructible
records, then loading the resulting checkpoint into a fresh manager,
reproduces the same completed-source set and the exact record list,
field-for-field (`CarListing` equality compares every field, `scraped_at`
included), together with the saved timestamps. -/
theorem claim_C2_checkpoint_roundtrip (completed : List Str)
    (records : List CarListing) (y : Int) (start_time : Option Nat)
    (now : Nat) (h : ∀ r ∈ records, postInitOk r y = true) :
    loadCheckpoint
        (FileContent.parsed (saveCheckpoint completed records start_time now))
        y freshManager =
      (true,
       { completed_dealerships := completed.toFinset
         scraped_listings := records
         start_time := some (start_time.getD now)
         last_update := some now }) := by
  have hdec := decodeListings_encode y records h []
  rw [List.nil_append] at hdec
  simp only [saveCheckpoint, loadCheckpoint, getCompleted_save,
    getListingsRaw_save, hdec, getStart_save, getLast_save]

/-- C2 witness at a concrete completed set and record list. -/
theorem claim_C2_checkpoint_roundtrip_witness :
    loadCheckpoint
        (FileContent.parsed (saveCheckpoint [str "Lot A"] [strictGateCar] none 7))
        2024 freshManager =
      (true,
       { completed_dealerships := [str "Lot A"].toFinset
         scraped_listings := [strictGateCar]
         start_time := some 7
         last_update := some 7 }) :=
  claim_C2_checkpoint_roundtrip [str "Lot A"] [strictGateCar] 2024 none 7
    (by
      intro r hr
      rw [List.mem_singleton] at hr
      subst hr
      decide)

/-- C3 (counterexample): on an existing checkpoint whose JSON parses but
whose listing array holds an invalid entry, `load` returns normally
(`False`) yet the manager is *not* left in the fresh empty state: the
completed-source set assigned before the failure survives. -/
theorem claim_C3_counterexample :
    (loadCheckpoint (FileContent.parsed badCheckpointJson) 2024
      freshManager).1 = false ∧
    (loadCheckpoint (FileContent.parsed badCheckpointJson) 2024
      freshManager).2.completed_dealerships = {str "X"} ∧
    ({str "X"} : Finset Str) ≠ (∅ : Finset Str) := by
  refine ⟨rfl, by decide, by decide⟩

/-- C3 (amended): `load` never raises and always returns a boolean; on a
missing file, an unparseable file, or a top-level JSON value that is not an
object, it returns `False` and leaves the manager state untouched (so a
fresh manager stays empty).  A format failure occurring after parsing began
— e.g. an invalid listing entry — still returns `False` but retains the
partially loaded state. -/
theorem claim_C3_load_failure_amended :
    (∀ (y : Int) (st : ManagerState),
      loadCheckpoint FileContent.missing y st = (false, st)) ∧
    (∀ (y : Int) (st : ManagerState),
      loadCheckpoint FileContent.malformed y st = (false, st)) ∧
    (∀ (y : Int) (st : ManagerState) (j : Json),
      (∀ fields, j ≠ Json.jobj fields) →
      loadCheckpoint (FileContent.parsed j) y st = (false, st)) := by
  refine ⟨fun y st => rfl, fun y st => rfl, ?_⟩
  intro y st j hj
  cases j with
  | jobj fields => exact absurd rfl (hj fields)
  | null => rfl
  | jstr s => rfl
  | jint n => rfl
  | jnum q => rfl
  | jarr xs => rfl

/-- C3 amended-claim witness: a top-level JSON array leaves a fresh manager
untouched. -/
theorem claim_C3_load_failure_amended_witness :
    loadCheckpoint (FileContent.parsed (Json.jarr [])) 0 freshManager =
      (false, freshManager) :=
  claim_C3_load_failure_amended.2.2 0 freshManager (Json.jarr [])
    (fun _ h => Json.noConfusion h)
